import Mathlib

/-
Verification of the webhook ingestion and subscription reconciliation core of
the step-by-step-stripe repository.  The definitions below are a shallow
embedding of the TypeScript source: lib/subscription.ts (tier mapping),
lib/subscription-sync.ts (on-demand reconciliation), and
src/app/api/webhooks/stripe/route.ts (the webhook POST handler).
External collaborators (the Stripe API and the Supabase store) are modelled as
explicit state: the provider as a list of subscriptions plus a read-failure
flag, the store as association lists keyed by user id.
-/

namespace StepByStepStripe

/-- Static price-id configuration: the three NEXT_PUBLIC_STRIPE_PRICE_ID_*
environment values read by lib/subscription.ts and by the webhook route. -/
structure PriceConfig where
  baby : String
  premium : String
  pro : String
deriving DecidableEq

/-- The PlanTier union type of lib/subscription.ts. -/
inductive PlanTier
  | free
  | baby
  | premium
  | pro
deriving DecidableEq

/-- getPlanTier from lib/subscription.ts.  In the source a null or empty
price id is falsy, hence free; otherwise the id is compared with the three
configured price ids in the order baby, premium, pro. -/
def getPlanTier (cfg : PriceConfig) (priceId : Option String) : PlanTier :=
  match priceId with
  | none => .free
  | some p =>
    if p = "" then .free
    else if p = cfg.baby then .baby
    else if p = cfg.premium then .premium
    else if p = cfg.pro then .pro
    else .free

/-- getPlanTierPriority from lib/subscription.ts. -/
def getPlanTierPriority : PlanTier → Nat
  | .free => 0
  | .baby => 1
  | .premium => 2
  | .pro => 3

/-- isSubscriptionActive from lib/subscription.ts: the active-like statuses
are active and trialing. -/
def isSubscriptionActive (status : Option String) : Bool :=
  status == some "active" || status == some "trialing"

/-- A provider-side subscription object as the core reads it: id, owning
customer, status, the price id of the first line item, and the period end. -/
structure StripeSub where
  id : String
  customer : String
  status : String
  priceId : Option String
  currentPeriodEnd : Option Int
deriving DecidableEq

/-- Provider-side state for the subscriptions.list endpoint: the set of
subscriptions, plus a flag saying whether the live read fails. -/
structure ProviderState where
  subs : List StripeSub
  listFails : Bool
deriving DecidableEq

/-- The stripe.subscriptions.list call with customer and status "active"
filters and limit 10, as issued both by getActiveStripeSubscriptions and by
the webhook subscription branch.  A failing read is an error. -/
def listActiveSubscriptions (ps : ProviderState) (customerId : String) :
    Except Unit (List StripeSub) :=
  if ps.listFails then .error ()
  else .ok (((ps.subs.filter
    (fun s => s.customer == customerId && s.status == "active"))).take 10)

/-- StripeSubscriptionInfo from lib/subscription-sync.ts. -/
structure StripeSubscriptionInfo where
  id : String
  status : String
  priceId : Option String
  currentPeriodEnd : Option Int
  tier : PlanTier
  priority : Nat
deriving DecidableEq

/-- The price id as the reconciliation code reads it from a listed
subscription: the first line item id followed by the JS or-null fallback,
which coerces both a missing id and the empty string to null. -/
def normalizePriceId : Option String → Option String
  | none => none
  | some p => if p = "" then none else some p

/-- The mapping applied to each listed subscription inside
getActiveStripeSubscriptions: the price id is read with the or-null
fallback, then the tier and priority are derived from it. -/
def toSubscriptionInfo (cfg : PriceConfig) (s : StripeSub) :
    StripeSubscriptionInfo :=
  let priceId := normalizePriceId s.priceId
  let tier := getPlanTier cfg priceId
  { id := s.id
    status := s.status
    priceId := priceId
    currentPeriodEnd := s.currentPeriodEnd
    tier := tier
    priority := getPlanTierPriority tier }

/-- getActiveStripeSubscriptions from lib/subscription-sync.ts.  The source
wraps the provider call in try/catch and returns the empty list when the read
throws, so a provider failure is indistinguishable from having no active
subscriptions. -/
def getActiveStripeSubscriptions (cfg : PriceConfig) (ps : ProviderState)
    (customerId : String) : List StripeSubscriptionInfo :=
  match listActiveSubscriptions ps customerId with
  | .error _ => []
  | .ok subs => subs.map (toSubscriptionInfo cfg)

/-- getHighestPrioritySubscription from lib/subscription-sync.ts: a reduce
with no initial value, keeping the current element only when its priority is
strictly greater, so ties keep the earlier element. -/
def getHighestPrioritySubscription :
    List StripeSubscriptionInfo → Option StripeSubscriptionInfo
  | [] => none
  | s :: rest =>
    some (rest.foldl
      (fun highest current =>
        if current.priority > highest.priority then current else highest) s)

/-- A row of the stripe_step_by_step_profiles table, as read and written by
the core (the TenantUser record). -/
structure Profile where
  stripe_customer_id : Option String
  billing_email : Option String
  subscription_status : Option String
  subscription_price_id : Option String
  subscription_current_period_end : Option Int
deriving DecidableEq

/-- The result object of syncSubscriptionToDatabase. -/
structure SyncResult where
  success : Bool
  subscription : Option StripeSubscriptionInfo
  error : Option String
deriving DecidableEq

/-- syncSubscriptionToDatabase from lib/subscription-sync.ts, acting on the
profile row of the given user.  With no active subscriptions it nulls the
three snapshot columns; otherwise it writes the status, price id and period
end of the highest priority subscription.  The store update itself is
modelled as succeeding. -/
def syncSubscriptionToDatabase (cfg : PriceConfig) (ps : ProviderState)
    (customerId : String) (prof : Profile) : SyncResult × Profile :=
  let activeSubscriptions := getActiveStripeSubscriptions cfg ps customerId
  if activeSubscriptions.isEmpty then
    ({ success := true, subscription := none, error := none },
     { prof with
        subscription_status := none
        subscription_price_id := none
        subscription_current_period_end := none })
  else
    match getHighestPrioritySubscription activeSubscriptions with
    | none =>
      ({ success := false, subscription := none,
         error := some "No valid subscription found" }, prof)
    | some highestSubscription =>
      ({ success := true, subscription := some highestSubscription,
         error := none },
       { prof with
          subscription_status := some highestSubscription.status
          subscription_price_id := highestSubscription.priceId
          subscription_current_period_end :=
            highestSubscription.currentPeriodEnd })

/-- forceSyncUserSubscription from lib/subscription-sync.ts: read the stored
customer id from the profile, fail when absent, otherwise delegate to
syncSubscriptionToDatabase. -/
def forceSyncUserSubscription (cfg : PriceConfig) (ps : ProviderState)
    (prof : Profile) : SyncResult × Profile :=
  match prof.stripe_customer_id with
  | none =>
    ({ success := false, subscription := none,
       error := some "No Stripe customer ID found" }, prof)
  | some customerId => syncSubscriptionToDatabase cfg ps customerId prof

/-- A checkout.session.completed payload as read by the webhook handler. -/
structure CheckoutSession where
  customer : Option String
  email : Option String
  mode : String
  amount_total : Option Int
  currency : Option String
deriving DecidableEq

/-- An invoice payload as read by the webhook handler. -/
structure InvoiceObject where
  id : String
  customer : String
  amount_paid : Option Int
  amount_due : Option Int
  currency : Option String
deriving DecidableEq

/-- The data.object carried by an event, a closed variant of the payload
shapes the dispatcher actually reads. -/
inductive EventObject
  | checkout (s : CheckoutSession)
  | subscription (sub : StripeSub)
  | invoice (inv : InvoiceObject)
  | opaqueObject
deriving DecidableEq

/-- A verified Stripe event: stable id, type string, payload. -/
structure StripeEvent where
  id : String
  eventType : String
  object : EventObject
deriving DecidableEq

/-- A row of the stripe_step_by_step_payments table, the processed-event
ledger and audit record. -/
structure PaymentRow where
  user_id : Option String
  stripe_event_id : String
  rowType : String
  amount_total : Option Int
  currency : Option String
  raw : EventObject
deriving DecidableEq

/-- The persistent store as the webhook sees it: the profiles table keyed by
user id, and the payments ledger. -/
structure WebhookState where
  profiles : List (String × Profile)
  payments : List PaymentRow
deriving DecidableEq

/-- Outcomes of the external calls a single webhook invocation makes,
together with the price configuration and the provider state.  Each flag set
to true makes the corresponding store or provider call fail. -/
structure WebhookEnv where
  cfg : PriceConfig
  provider : ProviderState
  retrieveCustomerFails : Bool
  customerMetadataUserId : Option String
  profileUpdateFails : Bool
  userLookupFails : Bool
  paymentInsertFails : Bool
  dedupCheckFails : Bool
deriving DecidableEq

/-- The select by id with limit 1 used to read a profile row. -/
def lookupProfile (profs : List (String × Profile)) (userId : String) :
    Option Profile :=
  (profs.find? (fun e => e.1 == userId)).map (fun e => e.2)

/-- The select by stripe_customer_id with limit 1 used by the subscription
and invoice branches to resolve the user id. -/
def findUserByCustomer (profs : List (String × Profile))
    (customerId : String) : Option String :=
  (profs.find? (fun e => e.2.stripe_customer_id == some customerId)).map
    (fun e => e.1)

/-- Errors reported by the store on a write. -/
inductive DbError
  | conflict
  | otherFailure
deriving DecidableEq

/-- Modelled from the spec: the stripe_step_by_step_profiles schema is not in
the repository sources; per the data model a provider customer reference is
unique across all TenantUsers, so an update that would link a customer id
already held by a different user fails with a Conflict instead of being
applied.  Otherwise the update writes stripe_customer_id and billing_email on
every row whose id matches, as the checkout branch of the webhook does. -/
def updateProfileLink (profs : List (String × Profile)) (userId : String)
    (customerId : String) (email : Option String) :
    Except DbError (List (String × Profile)) :=
  if profs.any (fun e =>
      decide (e.1 ≠ userId ∧ e.2.stripe_customer_id = some customerId)) then
    .error .conflict
  else
    .ok (profs.map (fun e =>
      if e.1 = userId then
        (e.1, { e.2 with
                  stripe_customer_id := some customerId
                  billing_email := email })
      else e))

/-- The update of the three snapshot columns on the profile row of a user,
as performed by the webhook subscription branch. -/
def updateProfileSnapshot (profs : List (String × Profile)) (userId : String)
    (status priceId : Option String) (periodEnd : Option Int) :
    List (String × Profile) :=
  profs.map (fun e =>
    if e.1 = userId then
      (e.1, { e.2 with
                subscription_status := status
                subscription_price_id := priceId
                subscription_current_period_end := periodEnd })
    else e)

/-- The inline tier mapping of the webhook subscription branch, applied to
the tier field of each pair, which is the first line item price id read with
the or-null fallback: the id is compared with the three configured ids in
the order baby, premium, pro, anything else being free (a null id matches
none of them). -/
def webhookTierOf (cfg : PriceConfig) (priceId : Option String) : PlanTier :=
  match priceId with
  | none => .free
  | some p =>
    if p = cfg.baby then .baby
    else if p = cfg.premium then .premium
    else if p = cfg.pro then .pro
    else .free

/-- The inline priority mapping of the webhook subscription branch. -/
def webhookTierPriority : PlanTier → Nat
  | .free => 0
  | .baby => 1
  | .premium => 2
  | .pro => 3

/-- The sort key the webhook comparator uses for a raw subscription: the
tier field it sorts on is the price id read with the or-null fallback. -/
def subPriority (cfg : PriceConfig) (s : StripeSub) : Nat :=
  webhookTierPriority (webhookTierOf cfg (normalizePriceId s.priceId))

/-- Stable insertion step for a descending sort by a numeric key: an element
is placed before the first strictly smaller-keyed element, after
equal-keyed elements coming earlier in the input. -/
def insertDescBy (key : α → Nat) (x : α) : List α → List α
  | [] => [x]
  | y :: ys =>
    if key x ≥ key y then x :: y :: ys else y :: insertDescBy key x ys

/-- The Array.prototype.sort call of the webhook branch with comparator
priorityB - priorityA.  Array.prototype.sort is stable, and a stable sort is
determined uniquely by its comparator, so a stable insertion sort is the
same function. -/
def sortDescBy (key : α → Nat) : List α → List α
  | [] => []
  | x :: xs => insertDescBy key x (sortDescBy key xs)

/-- The highestSubscription selection of the webhook subscription branch:
it starts from the subscription carried by the triggering event and is
replaced by sortedSubscriptions[0] only when the listed set is non-empty. -/
def webhookHighestSubscription (cfg : PriceConfig)
    (activeList : List StripeSub) (sub : StripeSub) : StripeSub :=
  if activeList.isEmpty then sub
  else
    match (sortDescBy (subPriority cfg) activeList).head? with
    | some best => best
    | none => sub

/-- The checkout.session.completed branch of the webhook handler.  The
customer retrieval is caught on failure; a store error on the link update is
logged and leaves the table unchanged; the ledger insert is attempted
unconditionally afterwards and its own failure is caught. -/
def handleCheckout (env : WebhookEnv) (st : WebhookState) (eventId : String)
    (s : CheckoutSession) : WebhookState :=
  let profiles :=
    match s.customer with
    | none => st.profiles
    | some customerId =>
      if env.retrieveCustomerFails then st.profiles
      else
        match env.customerMetadataUserId with
        | none => st.profiles
        | some userId =>
          if env.profileUpdateFails then st.profiles
          else
            match updateProfileLink st.profiles userId customerId s.email with
            | .error _ => st.profiles
            | .ok profs => profs
  let payments :=
    if env.paymentInsertFails then st.payments
    else
      { user_id := none
        stripe_event_id := eventId
        rowType := if s.mode = "subscription" then "subscription" else "one_time"
        amount_total := s.amount_total
        currency := s.currency
        raw := .checkout s } :: st.payments
  { profiles := profiles, payments := payments }

/-- The customer.subscription.created/updated/deleted branch of the webhook
handler: resolve the user by customer id (a store failure leaves the user
unresolved), list the active subscriptions live (a provider failure is
caught and skips the snapshot update), pick the highest tier with the event
subscription as fallback, update the snapshot, then append the ledger row
regardless. -/
def handleSubscriptionEvent (env : WebhookEnv) (st : WebhookState)
    (eventId : String) (sub : StripeSub) : WebhookState :=
  let userId : Option String :=
    if env.userLookupFails then none
    else findUserByCustomer st.profiles sub.customer
  let profiles :=
    match userId with
    | none => st.profiles
    | some uid =>
      match listActiveSubscriptions env.provider sub.customer with
      | .error _ => st.profiles
      | .ok activeList =>
        let h := webhookHighestSubscription env.cfg activeList sub
        if env.profileUpdateFails then st.profiles
        else
          updateProfileSnapshot st.profiles uid (some h.status) h.priceId
            h.currentPeriodEnd
  let payments :=
    if env.paymentInsertFails then st.payments
    else
      { user_id := userId
        stripe_event_id := eventId
        rowType := "subscription"
        amount_total := none
        currency := none
        raw := .subscription sub } :: st.payments
  { profiles := profiles, payments := payments }

/-- The invoice.payment_succeeded/failed branch: resolve the user, append a
ledger row with amount_paid falling back to amount_due, never touch the
subscription snapshot. -/
def handleInvoice (env : WebhookEnv) (st : WebhookState) (eventId : String)
    (inv : InvoiceObject) : WebhookState :=
  let userId : Option String :=
    if env.userLookupFails then none
    else findUserByCustomer st.profiles inv.customer
  let payments :=
    if env.paymentInsertFails then st.payments
    else
      { user_id := userId
        stripe_event_id := eventId
        rowType := "invoice"
        amount_total :=
          match inv.amount_paid with
          | some a => some a
          | none => inv.amount_due
        currency := inv.currency
        raw := .invoice inv } :: st.payments
  { st with payments := payments }

/-- The switch on event.type of the webhook handler; unrecognized types are
logged and change nothing. -/
def handleEvent (env : WebhookEnv) (st : WebhookState) (event : StripeEvent) :
    WebhookState :=
  match event.eventType, event.object with
  | "checkout.session.completed", .checkout s =>
    handleCheckout env st event.id s
  | "customer.subscription.created", .subscription sub =>
    handleSubscriptionEvent env st event.id sub
  | "customer.subscription.updated", .subscription sub =>
    handleSubscriptionEvent env st event.id sub
  | "customer.subscription.deleted", .subscription sub =>
    handleSubscriptionEvent env st event.id sub
  | "invoice.payment_succeeded", .invoice inv =>
    handleInvoice env st event.id inv
  | "invoice.payment_failed", .invoice inv =>
    handleInvoice env st event.id inv
  | _, _ => st

/-- Shape test: the payload is a checkout session. -/
def isCheckoutObject : EventObject → Bool
  | .checkout _ => true
  | _ => false

/-- Shape test: the payload is a subscription object. -/
def isSubscriptionObject : EventObject → Bool
  | .subscription _ => true
  | _ => false

/-- Shape test: the payload is an invoice object. -/
def isInvoiceObject : EventObject → Bool
  | .invoice _ => true
  | _ => false

/-- True exactly when the event has one of the six handled types with the
matching payload shape. -/
def handledEvent (e : StripeEvent) : Bool :=
  (e.eventType == "checkout.session.completed" && isCheckoutObject e.object) ||
  ((e.eventType == "customer.subscription.created" ||
    e.eventType == "customer.subscription.updated" ||
    e.eventType == "customer.subscription.deleted") &&
      isSubscriptionObject e.object) ||
  ((e.eventType == "invoice.payment_succeeded" ||
    e.eventType == "invoice.payment_failed") && isInvoiceObject e.object)

/-- The HTTP responses the webhook endpoint produces. -/
inductive HttpResponse
  | badRequest (body : String)
  | ok (duplicate : Bool)
  | serverError
deriving DecidableEq

/-- An inbound request: whether the stripe-signature header is present,
whether constructEvent accepts the body and signature, and the event the
verifier yields on success. -/
structure WebhookRequest where
  hasSignature : Bool
  signatureValid : Bool
  event : StripeEvent
deriving DecidableEq

/-- The POST handler of src/app/api/webhooks/stripe/route.ts: reject with 400
when the signature header is missing or verification fails; read the ledger
for the event id and short-circuit with a duplicate success response when a
row exists, continuing as if new when that read itself fails; otherwise
dispatch to the handler (whose internal failures are all caught) and respond
with the success body. -/
def webhookPOST (env : WebhookEnv) (st : WebhookState) (req : WebhookRequest) :
    HttpResponse × WebhookState :=
  if !req.hasSignature then (.badRequest "Missing signature", st)
  else if !req.signatureValid then (.badRequest "Invalid signature", st)
  else
    let event := req.event
    let isDuplicate :=
      if env.dedupCheckFails then false
      else st.payments.any (fun r => r.stripe_event_id == event.id)
    if isDuplicate then (.ok true, st)
    else (.ok false, handleEvent env st event)

/-! Generic facts about the first-maximum selection (the reduce of
getHighestPrioritySubscription) and the stable descending sort (the webhook
comparator sort). -/

/-- The reduce of the source, as a left fold seeded with the first element. -/
def redMaxBy (key : α → Nat) (x : α) (xs : List α) : α :=
  xs.foldl (fun highest current =>
    if key current > key highest then current else highest) x

/-- The first element of a list attaining the maximal key, as an option. -/
def firstMaxBy (key : α → Nat) : List α → Option α
  | [] => none
  | x :: xs => some (redMaxBy key x xs)

theorem redMaxBy_nil (key : α → Nat) (x : α) : redMaxBy key x [] = x := rfl

theorem redMaxBy_cons (key : α → Nat) (x y : α) (ys : List α) :
    redMaxBy key x (y :: ys) =
      redMaxBy key (if key y > key x then y else x) ys := rfl

theorem firstMaxBy_eq_none (key : α → Nat) {l : List α}
    (h : firstMaxBy key l = none) : l = [] := by
  cases l with
  | nil => rfl
  | cons x xs => simp [firstMaxBy] at h

/-- Unfolding a seeded reduce against the first maximum of the tail. -/
theorem redMaxBy_eq_match (key : α → Nat) (xs : List α) (x : α) :
    redMaxBy key x xs =
      match firstMaxBy key xs with
      | none => x
      | some m => if key m > key x then m else x := by
  induction xs generalizing x with
  | nil => rfl
  | cons y ys ih =>
    rw [redMaxBy_cons, ih,
      show firstMaxBy key (y :: ys) = some (redMaxBy key y ys) from rfl,
      ih y]
    cases hfm : firstMaxBy key ys with
    | none => by_cases h1 : key y > key x <;> simp [h1]
    | some m =>
      by_cases h1 : key y > key x <;> by_cases h2 : key m > key y <;>
        simp [h1, h2] <;> (try split) <;> intros <;>
        first | rfl | (exfalso; omega)

/-- The selected element is one of the candidates. -/
theorem redMaxBy_mem (key : α → Nat) (x : α) (xs : List α) :
    redMaxBy key x xs ∈ x :: xs := by
  induction xs generalizing x with
  | nil => simp [redMaxBy]
  | cons y ys ih =>
    rw [redMaxBy_cons]
    have h := ih (if key y > key x then y else x)
    rcases List.mem_cons.mp h with h' | h'
    · rw [h']
      split <;> simp
    · simp [List.mem_cons]
      tauto

/-- The selected element has a key at least as large as every candidate. -/
theorem redMaxBy_le (key : α → Nat) (x : α) (xs : List α) :
    ∀ t ∈ x :: xs, key t ≤ key (redMaxBy key x xs) := by
  induction xs generalizing x with
  | nil =>
    intro t ht
    simp at ht
    simp [redMaxBy, ht]
  | cons y ys ih =>
    intro t ht
    rw [redMaxBy_cons]
    have hstep : key x ≤ key (if key y > key x then y else x) ∧
        key y ≤ key (if key y > key x then y else x) := by
      split <;> constructor <;> omega
    rcases List.mem_cons.mp ht with h' | h'
    · calc key t = key x := by rw [h']
        _ ≤ key (if key y > key x then y else x) := hstep.1
        _ ≤ _ := ih _ _ (List.mem_cons_self _ _)
    · rcases List.mem_cons.mp h' with h'' | h''
      · calc key t = key y := by rw [h'']
          _ ≤ key (if key y > key x then y else x) := hstep.2
          _ ≤ _ := ih _ _ (List.mem_cons_self _ _)
      · exact ih _ _ (List.mem_cons_of_mem _ h'')

/-- The head of a stable insertion is the insert when its key dominates the
old head, the old head otherwise. -/
theorem head_insertDescBy (key : α → Nat) (x : α) (l : List α) :
    (insertDescBy key x l).head? =
      some (match l.head? with
        | none => x
        | some y => if key x ≥ key y then x else y) := by
  cases l with
  | nil => rfl
  | cons y ys =>
    by_cases h : key x ≥ key y <;> simp [insertDescBy, h]

/-- The head of the stable descending sort is the first maximum. -/
theorem head_sortDescBy (key : α → Nat) (l : List α) :
    (sortDescBy key l).head? = firstMaxBy key l := by
  induction l with
  | nil => rfl
  | cons x xs ih =>
    rw [show sortDescBy key (x :: xs) = insertDescBy key x (sortDescBy key xs)
        from rfl,
      head_insertDescBy, ih,
      show firstMaxBy key (x :: xs) = some (redMaxBy key x xs) from rfl,
      redMaxBy_eq_match]
    cases hfm : firstMaxBy key xs with
    | none => rfl
    | some m =>
      by_cases h : key x ≥ key m <;> simp [h] <;>
        (try split) <;> first | rfl | omega

/-- A seeded reduce on a mapped list is the image of the reduce with the
composed key. -/
theorem redMaxBy_map (f : α → β) (key : β → Nat) (x : α) (xs : List α) :
    redMaxBy key (f x) (xs.map f) = f (redMaxBy (fun a => key (f a)) x xs) := by
  induction xs generalizing x with
  | nil => rfl
  | cons y ys ih =>
    rw [List.map_cons, redMaxBy_cons, redMaxBy_cons, ← apply_ite f, ih]

/-- A seeded reduce only depends on the key pointwise. -/
theorem redMaxBy_congr {key1 key2 : α → Nat} (h : ∀ a, key1 a = key2 a)
    (x : α) (xs : List α) : redMaxBy key1 x xs = redMaxBy key2 x xs := by
  induction xs generalizing x with
  | nil => rfl
  | cons y ys ih => rw [redMaxBy_cons, redMaxBy_cons, h y, h x, ih]

/-! Bridging facts between the sync path and the webhook path. -/

/-- The two copies of the priority table agree. -/
theorem webhookTierPriority_eq (t : PlanTier) :
    webhookTierPriority t = getPlanTierPriority t := by
  cases t <;> rfl

/-- On price ids read with the or-null fallback (which never yields the
empty string), the inline tier mapping of the webhook branch agrees with
getPlanTier. -/
theorem webhookTierOf_normalize_eq (cfg : PriceConfig)
    (priceId : Option String) :
    webhookTierOf cfg (normalizePriceId priceId) =
      getPlanTier cfg (normalizePriceId priceId) := by
  cases priceId with
  | none => rfl
  | some p =>
    by_cases he : p = "" <;>
      simp [normalizePriceId, he, webhookTierOf, getPlanTier]

/-- A price id other than the empty string is unchanged by the or-null
fallback. -/
theorem normalizePriceId_eq_self {p : Option String} (h : p ≠ some "") :
    normalizePriceId p = p := by
  cases p with
  | none => rfl
  | some q =>
    have hq : q ≠ "" := fun e => h (by rw [e])
    simp [normalizePriceId, hq]

/-- The priority recorded by toSubscriptionInfo is the webhook sort key. -/
theorem toSubscriptionInfo_priority (cfg : PriceConfig) (s : StripeSub) :
    (toSubscriptionInfo cfg s).priority = subPriority cfg s := by
  simp [toSubscriptionInfo, subPriority, webhookTierPriority_eq,
    webhookTierOf_normalize_eq]

/-- The reduce of the source seen through firstMaxBy. -/
theorem getHighest_eq_firstMaxBy (l : List StripeSubscriptionInfo) :
    getHighestPrioritySubscription l = firstMaxBy (fun s => s.priority) l := by
  cases l <;> rfl

/-- Reading a row of the profiles table headed by a known entry. -/
theorem lookupProfile_cons (k : String) (p : Profile)
    (rest : List (String × Profile)) (userId : String) :
    lookupProfile ((k, p) :: rest) userId =
      if k = userId then some p else lookupProfile rest userId := by
  by_cases h : k = userId
  · rw [if_pos h]
    unfold lookupProfile
    rw [List.find?_cons_of_pos _ (by simp [h])]
    rfl
  · rw [if_neg h]
    unfold lookupProfile
    rw [List.find?_cons_of_neg _ (by simp [h])]

/-- Reading a profile row back after a snapshot update. -/
theorem lookupProfile_updateProfileSnapshot (profs : List (String × Profile))
    (userId : String) (status priceId : Option String)
    (periodEnd : Option Int) :
    lookupProfile (updateProfileSnapshot profs userId status priceId periodEnd)
        userId =
      (lookupProfile profs userId).map (fun p =>
        { p with
            subscription_status := status
            subscription_price_id := priceId
            subscription_current_period_end := periodEnd }) := by
  induction profs with
  | nil => rfl
  | cons e rest ih =>
    rcases e with ⟨k, p⟩
    by_cases h : k = userId
    · simp [updateProfileSnapshot, List.map_cons, lookupProfile_cons, h]
    · simp only [updateProfileSnapshot, List.map_cons] at ih ⊢
      simp [lookupProfile_cons, h, ih]

/--
C1 counterexample: the persisted snapshot does not maximize over the
active-like statuses.  A user holding an active baby subscription and a
trialing pro subscription has two active-like subscriptions (trialing is
active-like by isSubscriptionActive and the pro price maps to the maximum
tier among them), yet reconciliation persists the baby price, because only
status-active subscriptions are fetched.
-/
theorem C1_counterexample :
    isSubscriptionActive (some "trialing") = true ∧
    getPlanTier ⟨"m_baby", "m_prem", "m_pro"⟩ (some "m_pro") = .pro ∧
    getPlanTier ⟨"m_baby", "m_prem", "m_pro"⟩ (some "m_baby") = .baby ∧
    getPlanTierPriority .baby < getPlanTierPriority .pro ∧
    (syncSubscriptionToDatabase ⟨"m_baby", "m_prem", "m_pro"⟩
        ⟨[⟨"s1", "cus_m", "active", some "m_baby", some 1⟩,
          ⟨"s2", "cus_m", "trialing", some "m_pro", some 2⟩], false⟩
        "cus_m"
        ⟨some "cus_m", none, none, none, none⟩).2.subscription_price_id
      = some "m_baby" := by
  decide

/--
C1 amended: reconciliation maximizes only over the subscriptions the
provider reports with status exactly active, not over all active-like
(active or trialing) subscriptions: for every user with at least one fetched
status-active subscription, syncSubscriptionToDatabase persists the snapshot
of a fetched subscription whose priority (free=0 < baby=1 < premium=2 <
pro=3) is maximal among all fetched subscriptions, and returns it as the
sync result; a trialing subscription at a higher tier is ignored.
-/
theorem C1_highest_tier_persisted (cfg : PriceConfig) (ps : ProviderState)
    (customerId : String) (prof : Profile)
    (h : getActiveStripeSubscriptions cfg ps customerId ≠ []) :
    ∃ s ∈ getActiveStripeSubscriptions cfg ps customerId,
      syncSubscriptionToDatabase cfg ps customerId prof =
        ({ success := true, subscription := some s, error := none },
         { prof with
            subscription_status := some s.status
            subscription_price_id := s.priceId
            subscription_current_period_end := s.currentPeriodEnd }) ∧
      ∀ t ∈ getActiveStripeSubscriptions cfg ps customerId,
        t.priority ≤ s.priority := by
  rcases hl : getActiveStripeSubscriptions cfg ps customerId with _ | ⟨x, xs⟩
  · exact absurd hl h
  · refine ⟨redMaxBy (fun s => s.priority) x xs, ?_, ?_, ?_⟩
    · exact redMaxBy_mem _ x xs
    · simp [syncSubscriptionToDatabase, hl, getHighest_eq_firstMaxBy,
        firstMaxBy]
    · exact redMaxBy_le _ x xs

/-- Concrete run of C1_highest_tier_persisted: a customer holding active
subscriptions at tiers baby, pro and premium is persisted at tier pro. -/
theorem C1_witness :
    (getActiveStripeSubscriptions ⟨"p_baby", "p_prem", "p_pro"⟩
        ⟨[⟨"sub1", "cus_1", "active", some "p_baby", some 100⟩,
          ⟨"sub2", "cus_1", "active", some "p_pro", some 200⟩,
          ⟨"sub3", "cus_1", "active", some "p_prem", some 300⟩], false⟩
        "cus_1" ≠ []) ∧
    (∃ s ∈ getActiveStripeSubscriptions ⟨"p_baby", "p_prem", "p_pro"⟩
        ⟨[⟨"sub1", "cus_1", "active", some "p_baby", some 100⟩,
          ⟨"sub2", "cus_1", "active", some "p_pro", some 200⟩,
          ⟨"sub3", "cus_1", "active", some "p_prem", some 300⟩], false⟩
        "cus_1",
      syncSubscriptionToDatabase ⟨"p_baby", "p_prem", "p_pro"⟩
          ⟨[⟨"sub1", "cus_1", "active", some "p_baby", some 100⟩,
            ⟨"sub2", "cus_1", "active", some "p_pro", some 200⟩,
            ⟨"sub3", "cus_1", "active", some "p_prem", some 300⟩], false⟩
          "cus_1" ⟨some "cus_1", none, none, none, none⟩ =
        ({ success := true, subscription := some s, error := none },
         { (⟨some "cus_1", none, none, none, none⟩ : Profile) with
            subscription_status := some s.status
            subscription_price_id := s.priceId
            subscription_current_period_end := s.currentPeriodEnd }) ∧
      ∀ t ∈ getActiveStripeSubscriptions ⟨"p_baby", "p_prem", "p_pro"⟩
          ⟨[⟨"sub1", "cus_1", "active", some "p_baby", some 100⟩,
            ⟨"sub2", "cus_1", "active", some "p_pro", some 200⟩,
            ⟨"sub3", "cus_1", "active", some "p_prem", some 300⟩], false⟩
          "cus_1", t.priority ≤ s.priority) ∧
    (syncSubscriptionToDatabase ⟨"p_baby", "p_prem", "p_pro"⟩
        ⟨[⟨"sub1", "cus_1", "active", some "p_baby", some 100⟩,
          ⟨"sub2", "cus_1", "active", some "p_pro", some 200⟩,
          ⟨"sub3", "cus_1", "active", some "p_prem", some 300⟩], false⟩
        "cus_1" ⟨some "cus_1", none, none, none, none⟩).2.subscription_price_id
      = some "p_pro" :=
  ⟨by decide, C1_highest_tier_persisted _ _ _ _ (by decide), by decide⟩

/--
C2 counterexample: with the provider read failing and a previously persisted
active pro snapshot, syncSubscriptionToDatabase reports success and changes
the stored profile instead of failing and leaving it untouched.
-/
theorem C2_counterexample :
    (syncSubscriptionToDatabase ⟨"p_baby", "p_prem", "p_pro"⟩
        ⟨[⟨"sub2", "cus_1", "active", some "p_pro", some 200⟩], true⟩
        "cus_1"
        ⟨some "cus_1", some "a@b", some "active", some "p_pro",
          some 200⟩).1.success = true ∧
    (syncSubscriptionToDatabase ⟨"p_baby", "p_prem", "p_pro"⟩
        ⟨[⟨"sub2", "cus_1", "active", some "p_pro", some 200⟩], true⟩
        "cus_1"
        ⟨some "cus_1", some "a@b", some "active", some "p_pro",
          some 200⟩).2 ≠
      ⟨some "cus_1", some "a@b", some "active", some "p_pro", some 200⟩ := by
  decide

/--
C2 amended: when the live provider read fails, getActiveStripeSubscriptions
swallows the error and returns the empty list, so syncSubscriptionToDatabase
reports success and overwrites the persisted snapshot with the free-tier
nulls; the webhook subscription branch, whose own provider read failure is
caught before the update, leaves the profiles table unchanged.  No
ProviderUnavailable failure is surfaced on either path.
-/
theorem C2_amended :
    (∀ (cfg : PriceConfig) (ps : ProviderState) (customerId : String)
        (prof : Profile), ps.listFails = true →
      syncSubscriptionToDatabase cfg ps customerId prof =
        ({ success := true, subscription := none, error := none },
         { prof with
            subscription_status := none
            subscription_price_id := none
            subscription_current_period_end := none })) ∧
    (∀ (env : WebhookEnv) (st : WebhookState) (eventId : String)
        (sub : StripeSub), env.provider.listFails = true →
      (handleSubscriptionEvent env st eventId sub).profiles = st.profiles) := by
  constructor
  · intro cfg ps customerId prof h
    simp [syncSubscriptionToDatabase, getActiveStripeSubscriptions,
      listActiveSubscriptions, h]
  · intro env st eventId sub h
    simp only [handleSubscriptionEvent, listActiveSubscriptions, h,
      if_true, Bool.true_eq]
    split <;> rfl

/-- Concrete run of C2_amended on a failing provider read. -/
theorem C2_witness :
    ((⟨[⟨"sub2", "cus_2", "active", some "q_pro", some 20⟩], true⟩ :
        ProviderState).listFails = true) ∧
    syncSubscriptionToDatabase ⟨"q_baby", "q_prem", "q_pro"⟩
        ⟨[⟨"sub2", "cus_2", "active", some "q_pro", some 20⟩], true⟩
        "cus_2"
        ⟨some "cus_2", none, some "active", some "q_pro", some 20⟩ =
      ({ success := true, subscription := none, error := none },
       { (⟨some "cus_2", none, some "active", some "q_pro", some 20⟩ :
            Profile) with
          subscription_status := none
          subscription_price_id := none
          subscription_current_period_end := none }) ∧
    (handleSubscriptionEvent
        ⟨⟨"q_baby", "q_prem", "q_pro"⟩,
         ⟨[⟨"sub2", "cus_2", "active", some "q_pro", some 20⟩], true⟩,
         false, none, false, false, false, false⟩
        ⟨[("u2", ⟨some "cus_2", none, some "active", some "q_pro", some 20⟩)],
          []⟩
        "evt_c2" ⟨"sub2", "cus_2", "canceled", some "q_pro", some 20⟩).profiles
      = [("u2", ⟨some "cus_2", none, some "active", some "q_pro", some 20⟩)] :=
  ⟨rfl, C2_amended.1 _ _ _ _ rfl, C2_amended.2 _ _ _ _ rfl⟩

/--
C3 counterexample: the two reconciliation paths are not the same function of
provider state.  First divergence: with no active subscriptions the webhook
lifecycle path persists the status, price and period end of the subscription
carried by the triggering event, while the on-demand sync path persists the
free-tier nulls.  Second divergence: with one active subscription whose
first line item price id is the empty string, the sync path persists a null
price id (its or-null read coerces the empty string to null) while the
webhook path persists the empty string (its persistence read only coalesces
null).
-/
theorem C3_counterexample :
    lookupProfile
        (handleSubscriptionEvent
          ⟨⟨"p_baby", "p_prem", "p_pro"⟩, ⟨[], false⟩,
           false, none, false, false, false, false⟩
          ⟨[("u1", ⟨some "cus_1", none, none, none, none⟩)], []⟩
          "evt_c3"
          ⟨"sub9", "cus_1", "canceled", some "p_pro", some 500⟩).profiles
        "u1" ≠
      some (syncSubscriptionToDatabase ⟨"p_baby", "p_prem", "p_pro"⟩
          ⟨[], false⟩ "cus_1"
          ⟨some "cus_1", none, none, none, none⟩).2 ∧
    lookupProfile
        (handleSubscriptionEvent
          ⟨⟨"p_baby", "p_prem", "p_pro"⟩,
           ⟨[⟨"subE", "cus_e", "active", some "", some 9⟩], false⟩,
           false, none, false, false, false, false⟩
          ⟨[("ue", ⟨some "cus_e", none, none, none, none⟩)], []⟩
          "evt_c3e"
          ⟨"subE", "cus_e", "active", some "", some 9⟩).profiles
        "ue" ≠
      some (syncSubscriptionToDatabase ⟨"p_baby", "p_prem", "p_pro"⟩
          ⟨[⟨"subE", "cus_e", "active", some "", some 9⟩], false⟩ "cus_e"
          ⟨some "cus_e", none, none, none, none⟩).2 := by
  constructor <;> decide

/--
C3 amended: whenever the live provider read succeeds and returns at least
one active subscription, none of which carries the empty string as its first
line item price id, the webhook lifecycle path and the on-demand sync path
persist the same snapshot for the resolved user.  The two paths diverge
exactly at the excluded inputs: when the returned active list is empty the
webhook falls back to the event subscription while sync persists nulls, and
when the winning subscription carries the empty-string price id the sync
path persists a null price id while the webhook persists the empty string.
-/
theorem C3_amended (env : WebhookEnv) (st : WebhookState)
    (eventId uid : String) (sub : StripeSub) (prof : Profile)
    (l : List StripeSub)
    (hlk : env.userLookupFails = false)
    (hup : env.profileUpdateFails = false)
    (hfind : findUserByCustomer st.profiles sub.customer = some uid)
    (hprof : lookupProfile st.profiles uid = some prof)
    (hlist : listActiveSubscriptions env.provider sub.customer = .ok l)
    (hne : l ≠ [])
    (hid : ∀ s ∈ l, s.priceId ≠ some "") :
    lookupProfile (handleSubscriptionEvent env st eventId sub).profiles uid =
      some (syncSubscriptionToDatabase env.cfg env.provider sub.customer
        prof).2 := by
  rcases l with _ | ⟨x, xs⟩
  · exact absurd rfl hne
  · have hkey : ∀ s, (toSubscriptionInfo env.cfg s).priority =
        subPriority env.cfg s :=
      toSubscriptionInfo_priority env.cfg
    have hm : webhookHighestSubscription env.cfg (x :: xs) sub =
        redMaxBy (subPriority env.cfg) x xs := by
      simp [webhookHighestSubscription, head_sortDescBy, firstMaxBy]
    have hact : getActiveStripeSubscriptions env.cfg env.provider
        sub.customer = (x :: xs).map (toSubscriptionInfo env.cfg) := by
      simp [getActiveStripeSubscriptions, hlist]
    have hred : redMaxBy (fun s : StripeSubscriptionInfo => s.priority)
        (toSubscriptionInfo env.cfg x) (xs.map (toSubscriptionInfo env.cfg)) =
        toSubscriptionInfo env.cfg (redMaxBy (subPriority env.cfg) x xs) := by
      rw [redMaxBy_map, redMaxBy_congr hkey]
    have h1 : getHighestPrioritySubscription
        ((x :: xs).map (toSubscriptionInfo env.cfg)) =
        some (toSubscriptionInfo env.cfg
          (redMaxBy (subPriority env.cfg) x xs)) := by
      rw [getHighest_eq_firstMaxBy, List.map_cons]
      exact congrArg some hred
    have hnorm : normalizePriceId
        (redMaxBy (subPriority env.cfg) x xs).priceId =
        (redMaxBy (subPriority env.cfg) x xs).priceId :=
      normalizePriceId_eq_self (hid _ (redMaxBy_mem _ x xs))
    have hR : (syncSubscriptionToDatabase env.cfg env.provider sub.customer
        prof).2 =
        { prof with
            subscription_status :=
              some (redMaxBy (subPriority env.cfg) x xs).status
            subscription_price_id :=
              (redMaxBy (subPriority env.cfg) x xs).priceId
            subscription_current_period_end :=
              (redMaxBy (subPriority env.cfg) x xs).currentPeriodEnd } := by
      simp only [syncSubscriptionToDatabase, hact, h1]
      simp [toSubscriptionInfo, hnorm]
    rw [hR]
    simp [handleSubscriptionEvent, hlk, hfind, hlist, hup, hm,
      lookupProfile_updateProfileSnapshot, hprof]

/-- Concrete run of C3_amended: with one active premium subscription both
paths persist the same snapshot. -/
theorem C3_witness :
    lookupProfile
        (handleSubscriptionEvent
          ⟨⟨"p_baby", "p_prem", "p_pro"⟩,
           ⟨[⟨"sub3", "cus_1", "active", some "p_prem", some 300⟩], false⟩,
           false, none, false, false, false, false⟩
          ⟨[("u1", ⟨some "cus_1", none, none, none, none⟩)], []⟩
          "evt_c3w"
          ⟨"sub3", "cus_1", "active", some "p_prem", some 300⟩).profiles
        "u1" =
      some (syncSubscriptionToDatabase ⟨"p_baby", "p_prem", "p_pro"⟩
          ⟨[⟨"sub3", "cus_1", "active", some "p_prem", some 300⟩], false⟩
          "cus_1" ⟨some "cus_1", none, none, none, none⟩).2 :=
  C3_amended _ _ _ _ _ _ _ rfl rfl (by decide) (by decide) rfl (by decide)
    (by decide)

/--
C4 counterexample: a user whose provider-side active set is empty is not
persisted at the free tier by the webhook path when the triggering event
carries a canceled paid subscription: the event fields are persisted instead
of status none and null price and period end.
-/
theorem C4_counterexample :
    lookupProfile
        (handleSubscriptionEvent
          ⟨⟨"r_baby", "r_prem", "r_pro"⟩, ⟨[], false⟩,
           false, none, false, false, false, false⟩
          ⟨[("u4", ⟨some "cus_4", none, some "active", some "r_prem",
              some 777⟩)], []⟩
          "evt_c4"
          ⟨"sub4", "cus_4", "canceled", some "r_prem", some 777⟩).profiles
        "u4" =
      some ⟨some "cus_4", none, some "canceled", some "r_prem", some 777⟩ ∧
    lookupProfile
        (handleSubscriptionEvent
          ⟨⟨"r_baby", "r_prem", "r_pro"⟩, ⟨[], false⟩,
           false, none, false, false, false, false⟩
          ⟨[("u4", ⟨some "cus_4", none, some "active", some "r_prem",
              some 777⟩)], []⟩
          "evt_c4"
          ⟨"sub4", "cus_4", "canceled", some "r_prem", some 777⟩).profiles
        "u4" ≠
      some ⟨some "cus_4", none, none, none, none⟩ := by
  decide

/--
C4 amended: when the fetched active-subscription list is empty the on-demand
sync path persists the free-tier snapshot (status, price id and period end
all null) and reports success; the webhook path instead persists the fields
of the subscription carried by the triggering event.
-/
theorem C4_amended (cfg : PriceConfig) (ps : ProviderState)
    (customerId : String) (prof : Profile)
    (h : getActiveStripeSubscriptions cfg ps customerId = []) :
    syncSubscriptionToDatabase cfg ps customerId prof =
      ({ success := true, subscription := none, error := none },
       { prof with
          subscription_status := none
          subscription_price_id := none
          subscription_current_period_end := none }) := by
  simp [syncSubscriptionToDatabase, h]

/-- Concrete run of C4_amended on an empty provider state. -/
theorem C4_witness :
    (getActiveStripeSubscriptions ⟨"r_baby", "r_prem", "r_pro"⟩ ⟨[], false⟩
        "cus_4" = []) ∧
    syncSubscriptionToDatabase ⟨"r_baby", "r_prem", "r_pro"⟩ ⟨[], false⟩
        "cus_4" ⟨some "cus_4", none, some "active", some "r_prem", some 777⟩ =
      ({ success := true, subscription := none, error := none },
       { (⟨some "cus_4", none, some "active", some "r_prem", some 777⟩ :
            Profile) with
          subscription_status := none
          subscription_price_id := none
          subscription_current_period_end := none }) :=
  ⟨rfl, C4_amended _ _ _ _ rfl⟩

/-- Every handled branch of the dispatcher appends exactly one ledger row,
carrying the id of the event, when the insert does not fail. -/
theorem handleEvent_payments (env : WebhookEnv) (st : WebhookState)
    (event : StripeEvent) (hh : handledEvent event = true)
    (hins : env.paymentInsertFails = false) :
    ∃ row : PaymentRow, row.stripe_event_id = event.id ∧
      (handleEvent env st event).payments = row :: st.payments := by
  rcases event with ⟨eid, ety, obj⟩
  rcases obj with s | sub | inv | _
  · simp only [handledEvent, isCheckoutObject, isSubscriptionObject,
      isInvoiceObject, Bool.and_true, Bool.and_false, Bool.or_false,
      Bool.false_or] at hh
    have he : ety = "checkout.session.completed" := beq_iff_eq.mp hh
    subst he
    exact ⟨⟨none, eid,
      if s.mode = "subscription" then "subscription" else "one_time",
      s.amount_total, s.currency, .checkout s⟩, rfl,
      by simp [handleEvent, handleCheckout, hins]⟩
  · simp only [handledEvent, isCheckoutObject, isSubscriptionObject,
      isInvoiceObject, Bool.and_true, Bool.and_false, Bool.or_false,
      Bool.false_or, Bool.or_eq_true, beq_iff_eq] at hh
    have hrow : ∀ h : (ety = "customer.subscription.created" ∨
        ety = "customer.subscription.updated") ∨
        ety = "customer.subscription.deleted",
        ∃ row : PaymentRow, row.stripe_event_id = eid ∧
          (handleEvent env st ⟨eid, ety, .subscription sub⟩).payments =
            row :: st.payments := by
      intro h
      rcases h with (h | h) | h <;> subst h <;>
        exact ⟨⟨(if env.userLookupFails then none
            else findUserByCustomer st.profiles sub.customer), eid,
          "subscription", none, none, .subscription sub⟩, rfl,
          by simp [handleEvent, handleSubscriptionEvent, hins]⟩
    exact hrow hh
  · simp only [handledEvent, isCheckoutObject, isSubscriptionObject,
      isInvoiceObject, Bool.and_true, Bool.and_false, Bool.or_false,
      Bool.false_or, Bool.or_eq_true, beq_iff_eq] at hh
    have hrow : ∀ h : ety = "invoice.payment_succeeded" ∨
        ety = "invoice.payment_failed",
        ∃ row : PaymentRow, row.stripe_event_id = eid ∧
          (handleEvent env st ⟨eid, ety, .invoice inv⟩).payments =
            row :: st.payments := by
      intro h
      rcases h with h | h <;> subst h <;>
        exact ⟨⟨(if env.userLookupFails then none
            else findUserByCustomer st.profiles inv.customer), eid,
          "invoice",
          (match inv.amount_paid with
            | some a => some a
            | none => inv.amount_due),
          inv.currency, .invoice inv⟩, rfl,
          by simp [handleEvent, handleInvoice, hins]⟩
    exact hrow hh
  · simp [handledEvent, isCheckoutObject, isSubscriptionObject,
      isInvoiceObject] at hh

/--
C5 counterexample: for an event of an unrecognized type, no ledger row is
written on first delivery, so a second delivery of the same event id does
not short-circuit as a duplicate and the ledger holds zero rows for that id
after both deliveries, not exactly one.
-/
theorem C5_counterexample :
    (webhookPOST
        ⟨⟨"p_baby", "p_prem", "p_pro"⟩, ⟨[], false⟩,
         false, none, false, false, false, false⟩
        (webhookPOST
          ⟨⟨"p_baby", "p_prem", "p_pro"⟩, ⟨[], false⟩,
           false, none, false, false, false, false⟩
          ⟨[], []⟩
          ⟨true, true, ⟨"evt_c5", "payment_intent.succeeded",
            .opaqueObject⟩⟩).2
        ⟨true, true, ⟨"evt_c5", "payment_intent.succeeded",
          .opaqueObject⟩⟩).1 = .ok false ∧
    ((webhookPOST
        ⟨⟨"p_baby", "p_prem", "p_pro"⟩, ⟨[], false⟩,
         false, none, false, false, false, false⟩
        ⟨[], []⟩
        ⟨true, true, ⟨"evt_c5", "payment_intent.succeeded",
          .opaqueObject⟩⟩).2.payments.countP
      (fun r => r.stripe_event_id == "evt_c5")) = 0 := by
  decide

/--
C5 amended: for an event of one of the six handled types, delivered fresh
with working ledger reads and writes, the first delivery appends exactly one
ledger row for the event id, and a second delivery of the same event id
short-circuits before any handler logic with the duplicate success response,
leaving state exactly as after the first delivery; events of unrecognized
types write no ledger row and their redelivery repeats the no-op branch.
-/
theorem C5_amended (env : WebhookEnv) (st : WebhookState)
    (req : WebhookRequest)
    (h1 : req.hasSignature = true) (h2 : req.signatureValid = true)
    (h3 : env.dedupCheckFails = false) (h4 : env.paymentInsertFails = false)
    (h5 : handledEvent req.event = true)
    (h6 : st.payments.countP
      (fun r => r.stripe_event_id == req.event.id) = 0) :
    (webhookPOST env st req).1 = .ok false ∧
    ((webhookPOST env st req).2.payments.countP
      (fun r => r.stripe_event_id == req.event.id)) = 1 ∧
    webhookPOST env (webhookPOST env st req).2 req =
      (.ok true, (webhookPOST env st req).2) := by
  have hany : st.payments.any
      (fun r => r.stripe_event_id == req.event.id) = false := by
    rw [List.any_eq_false]
    intro a ha hpa
    have := List.countP_eq_zero.mp h6 a ha
    exact this hpa
  obtain ⟨row, hrow, hpay⟩ := handleEvent_payments env st req.event h5 h4
  have hfst : webhookPOST env st req =
      (.ok false, handleEvent env st req.event) := by
    simp [webhookPOST, h1, h2, h3, hany]
  refine ⟨by rw [hfst], ?_, ?_⟩
  · rw [hfst]
    simp only [hpay, List.countP_cons, h6, hrow]
    simp
  · rw [hfst]
    have hany2 : (handleEvent env st req.event).payments.any
        (fun r => r.stripe_event_id == req.event.id) = true := by
      rw [List.any_eq_true]
      exact ⟨row, by rw [hpay]; exact List.mem_cons_self _ _,
        by rw [hrow]; simp⟩
    simp [webhookPOST, h1, h2, h3, hany2]

/-- Concrete run of C5_amended on a fresh subscription event. -/
theorem C5_witness :
    ((⟨true, true, ⟨"evt_c5w", "customer.subscription.updated",
        .subscription ⟨"sub5", "cus_5", "active", some "w_pro", some 50⟩⟩⟩ :
      WebhookRequest).hasSignature = true) ∧
    (webhookPOST
        ⟨⟨"w_baby", "w_prem", "w_pro"⟩,
         ⟨[⟨"sub5", "cus_5", "active", some "w_pro", some 50⟩], false⟩,
         false, none, false, false, false, false⟩
        ⟨[("u5", ⟨some "cus_5", none, none, none, none⟩)], []⟩
        ⟨true, true, ⟨"evt_c5w", "customer.subscription.updated",
          .subscription ⟨"sub5", "cus_5", "active", some "w_pro",
            some 50⟩⟩⟩).1 = .ok false ∧
    ((webhookPOST
        ⟨⟨"w_baby", "w_prem", "w_pro"⟩,
         ⟨[⟨"sub5", "cus_5", "active", some "w_pro", some 50⟩], false⟩,
         false, none, false, false, false, false⟩
        ⟨[("u5", ⟨some "cus_5", none, none, none, none⟩)], []⟩
        ⟨true, true, ⟨"evt_c5w", "customer.subscription.updated",
          .subscription ⟨"sub5", "cus_5", "active", some "w_pro",
            some 50⟩⟩⟩).2.payments.countP
      (fun r => r.stripe_event_id == "evt_c5w")) = 1 ∧
    webhookPOST
        ⟨⟨"w_baby", "w_prem", "w_pro"⟩,
         ⟨[⟨"sub5", "cus_5", "active", some "w_pro", some 50⟩], false⟩,
         false, none, false, false, false, false⟩
        (webhookPOST
          ⟨⟨"w_baby", "w_prem", "w_pro"⟩,
           ⟨[⟨"sub5", "cus_5", "active", some "w_pro", some 50⟩], false⟩,
           false, none, false, false, false, false⟩
          ⟨[("u5", ⟨some "cus_5", none, none, none, none⟩)], []⟩
          ⟨true, true, ⟨"evt_c5w", "customer.subscription.updated",
            .subscription ⟨"sub5", "cus_5", "active", some "w_pro",
              some 50⟩⟩⟩).2
        ⟨true, true, ⟨"evt_c5w", "customer.subscription.updated",
          .subscription ⟨"sub5", "cus_5", "active", some "w_pro",
            some 50⟩⟩⟩ =
      (.ok true,
        (webhookPOST
          ⟨⟨"w_baby", "w_prem", "w_pro"⟩,
           ⟨[⟨"sub5", "cus_5", "active", some "w_pro", some 50⟩], false⟩,
           false, none, false, false, false, false⟩
          ⟨[("u5", ⟨some "cus_5", none, none, none, none⟩)], []⟩
          ⟨true, true, ⟨"evt_c5w", "customer.subscription.updated",
            .subscription ⟨"sub5", "cus_5", "active", some "w_pro",
              some 50⟩⟩⟩).2) := by
  have h := C5_amended
    ⟨⟨"w_baby", "w_prem", "w_pro"⟩,
     ⟨[⟨"sub5", "cus_5", "active", some "w_pro", some 50⟩], false⟩,
     false, none, false, false, false, false⟩
    ⟨[("u5", ⟨some "cus_5", none, none, none, none⟩)], []⟩
    ⟨true, true, ⟨"evt_c5w", "customer.subscription.updated",
      .subscription ⟨"sub5", "cus_5", "active", some "w_pro", some 50⟩⟩⟩
    rfl rfl rfl rfl (by decide) (by decide)
  exact ⟨rfl, h.1, h.2.1, h.2.2⟩

/--
C6 counterexample: a user whose only provider subscription is trialing at the
premium price is not included in the fetched set (the list filter is exactly
status active), and reconciliation persists the free tier for that user, not
premium.
-/
theorem C6_counterexample :
    getActiveStripeSubscriptions ⟨"t_baby", "t_prem", "t_pro"⟩
        ⟨[⟨"sub6", "cus_6", "trialing", some "t_prem", some 60⟩], false⟩
        "cus_6" = [] ∧
    (syncSubscriptionToDatabase ⟨"t_baby", "t_prem", "t_pro"⟩
        ⟨[⟨"sub6", "cus_6", "trialing", some "t_prem", some 60⟩], false⟩
        "cus_6"
        ⟨some "cus_6", none, none, none, none⟩).2.subscription_price_id
      = none := by
  decide

/--
C6 amended: the set of subscriptions reconciliation fetches contains only
subscriptions whose status is exactly active: the provider list call filters
on status active, so trialing subscriptions are excluded from the tier
computation and a user whose only subscription is trialing is persisted as
free.
-/
theorem C6_amended (cfg : PriceConfig) (ps : ProviderState)
    (customerId : String) (s : StripeSubscriptionInfo)
    (h : s ∈ getActiveStripeSubscriptions cfg ps customerId) :
    s.status = "active" := by
  unfold getActiveStripeSubscriptions listActiveSubscriptions at h
  by_cases hf : ps.listFails
  · simp [hf] at h
  · simp only [hf, if_false, Bool.false_eq_true] at h
    obtain ⟨raw, hmem, hmap⟩ := List.mem_map.mp h
    have hraw : raw ∈ ps.subs.filter
        (fun s => s.customer == customerId && s.status == "active") :=
      List.mem_of_mem_take hmem
    have hpred := (List.mem_filter.mp hraw).2
    have hstat : raw.status = "active" := by
      have := (Bool.and_eq_true _ _).mp hpred
      exact beq_iff_eq.mp this.2
    rw [← hmap]
    simpa [toSubscriptionInfo] using hstat

/-- Concrete run of C6_amended on a fetched active subscription. -/
theorem C6_witness :
    ((⟨"sub6", "active", some "t_pro", some 61, .pro, 3⟩ :
        StripeSubscriptionInfo) ∈
      getActiveStripeSubscriptions ⟨"t_baby", "t_prem", "t_pro"⟩
        ⟨[⟨"sub6", "cus_6", "active", some "t_pro", some 61⟩], false⟩
        "cus_6") ∧
    (⟨"sub6", "active", some "t_pro", some 61, .pro, 3⟩ :
        StripeSubscriptionInfo).status = "active" :=
  ⟨by decide,
    C6_amended ⟨"t_baby", "t_prem", "t_pro"⟩
      ⟨[⟨"sub6", "cus_6", "active", some "t_pro", some 61⟩], false⟩
      "cus_6" _ (by decide)⟩

/--
C7: once the signature header is present, verification succeeds and the
ledger read works, the endpoint responds with the success body for every
event and every combination of downstream failures (customer retrieval,
provider list, profile update, user lookup, ledger insert): handler faults
are caught inside the dispatcher and never produce an error response.
-/
theorem C7_received_true (env : WebhookEnv) (st : WebhookState)
    (req : WebhookRequest)
    (h1 : req.hasSignature = true) (h2 : req.signatureValid = true)
    (h3 : env.dedupCheckFails = false) :
    (webhookPOST env st req).1 = .ok true ∨
    (webhookPOST env st req).1 = .ok false := by
  simp only [webhookPOST, h1, h2, h3, Bool.not_true, Bool.false_eq_true,
    if_false]
  split
  · exact Or.inl rfl
  · exact Or.inr rfl

/-- Concrete run of C7_received_true with every downstream operation
failing: the response is still the success body. -/
theorem C7_witness :
    ((⟨true, true, ⟨"evt_c7", "customer.subscription.updated",
        .subscription ⟨"sub7", "cus_7", "active", some "v_pro",
          some 70⟩⟩⟩ : WebhookRequest).hasSignature = true) ∧
    ((webhookPOST
        ⟨⟨"v_baby", "v_prem", "v_pro"⟩, ⟨[], true⟩,
         true, none, true, true, true, false⟩
        ⟨[("u7", ⟨some "cus_7", none, some "active", some "v_pro",
            some 70⟩)], []⟩
        ⟨true, true, ⟨"evt_c7", "customer.subscription.updated",
          .subscription ⟨"sub7", "cus_7", "active", some "v_pro",
            some 70⟩⟩⟩).1 = .ok true ∨
     (webhookPOST
        ⟨⟨"v_baby", "v_prem", "v_pro"⟩, ⟨[], true⟩,
         true, none, true, true, true, false⟩
        ⟨[("u7", ⟨some "cus_7", none, some "active", some "v_pro",
            some 70⟩)], []⟩
        ⟨true, true, ⟨"evt_c7", "customer.subscription.updated",
          .subscription ⟨"sub7", "cus_7", "active", some "v_pro",
            some 70⟩⟩⟩).1 = .ok false) :=
  ⟨rfl,
    C7_received_true
      ⟨⟨"v_baby", "v_prem", "v_pro"⟩, ⟨[], true⟩,
       true, none, true, true, true, false⟩
      ⟨[("u7", ⟨some "cus_7", none, some "active", some "v_pro",
          some 70⟩)], []⟩
      ⟨true, true, ⟨"evt_c7", "customer.subscription.updated",
        .subscription ⟨"sub7", "cus_7", "active", some "v_pro", some 70⟩⟩⟩
      rfl rfl rfl⟩

/--
C8: linking a customer reference that a different user already holds fails
with Conflict and leaves the profiles table, in particular the original
link, unchanged: with user u1 storing the customer id, a checkout event
whose customer metadata resolves to a different user u2 makes the link
update fail with Conflict and the endpoint persists no profile change.
-/
theorem C8_conflict_link (env : WebhookEnv) (st : WebhookState)
    (eid u1 u2 cid : String) (prof1 : Profile) (sess : CheckoutSession)
    (hd : env.dedupCheckFails = false)
    (hfresh : st.payments.any (fun r => r.stripe_event_id == eid) = false)
    (hret : env.retrieveCustomerFails = false)
    (hmeta : env.customerMetadataUserId = some u2)
    (hupd : env.profileUpdateFails = false)
    (hcust : sess.customer = some cid)
    (hne : u1 ≠ u2)
    (hlook : lookupProfile st.profiles u1 = some prof1)
    (hlink : prof1.stripe_customer_id = some cid) :
    updateProfileLink st.profiles u2 cid sess.email = .error .conflict ∧
    (webhookPOST env st ⟨true, true, ⟨eid, "checkout.session.completed",
        .checkout sess⟩⟩).2.profiles = st.profiles ∧
    lookupProfile (webhookPOST env st ⟨true, true,
        ⟨eid, "checkout.session.completed",
          .checkout sess⟩⟩).2.profiles u1 = some prof1 := by
  unfold lookupProfile at hlook
  obtain ⟨e0, hfind, he0⟩ := Option.map_eq_some'.mp hlook
  have hmem : e0 ∈ st.profiles := List.mem_of_find?_eq_some hfind
  have hp := List.find?_some hfind
  have hkey : e0.1 = u1 := beq_iff_eq.mp hp
  have hany : st.profiles.any (fun e =>
      decide (e.1 ≠ u2 ∧ e.2.stripe_customer_id = some cid)) = true := by
    rw [List.any_eq_true]
    refine ⟨e0, hmem, ?_⟩
    rw [decide_eq_true_eq]
    exact ⟨by rw [hkey]; exact hne, by rw [he0]; exact hlink⟩
  have hconf : updateProfileLink st.profiles u2 cid sess.email =
      .error .conflict := by
    unfold updateProfileLink
    rw [hany]
    simp
  have hprofiles : (webhookPOST env st ⟨true, true,
      ⟨eid, "checkout.session.completed",
        .checkout sess⟩⟩).2.profiles = st.profiles := by
    simp [webhookPOST, hd, hfresh, handleEvent, handleCheckout, hcust,
      hret, hmeta, hupd, hconf]
  refine ⟨hconf, hprofiles, ?_⟩
  rw [hprofiles]
  unfold lookupProfile
  exact hlook

/-- Concrete run of C8_conflict_link: cus_8 is linked to u8a; a checkout
event resolving to u8b fails with Conflict and both rows are unchanged. -/
theorem C8_witness :
    updateProfileLink
        [("u8a", ⟨some "cus_8", none, none, none, none⟩),
         ("u8b", ⟨none, none, none, none, none⟩)]
        "u8b" "cus_8" (some "b@x") = .error .conflict ∧
    (webhookPOST
        ⟨⟨"x_baby", "x_prem", "x_pro"⟩, ⟨[], false⟩,
         false, some "u8b", false, false, false, false⟩
        ⟨[("u8a", ⟨some "cus_8", none, none, none, none⟩),
          ("u8b", ⟨none, none, none, none, none⟩)], []⟩
        ⟨true, true, ⟨"evt_c8", "checkout.session.completed",
          .checkout ⟨some "cus_8", some "b@x", "subscription", some 900,
            some "usd"⟩⟩⟩).2.profiles =
      [("u8a", ⟨some "cus_8", none, none, none, none⟩),
       ("u8b", ⟨none, none, none, none, none⟩)] ∧
    lookupProfile (webhookPOST
        ⟨⟨"x_baby", "x_prem", "x_pro"⟩, ⟨[], false⟩,
         false, some "u8b", false, false, false, false⟩
        ⟨[("u8a", ⟨some "cus_8", none, none, none, none⟩),
          ("u8b", ⟨none, none, none, none, none⟩)], []⟩
        ⟨true, true, ⟨"evt_c8", "checkout.session.completed",
          .checkout ⟨some "cus_8", some "b@x", "subscription", some 900,
            some "usd"⟩⟩⟩).2.profiles "u8a" =
      some ⟨some "cus_8", none, none, none, none⟩ :=
  C8_conflict_link
    ⟨⟨"x_baby", "x_prem", "x_pro"⟩, ⟨[], false⟩,
     false, some "u8b", false, false, false, false⟩
    ⟨[("u8a", ⟨some "cus_8", none, none, none, none⟩),
      ("u8b", ⟨none, none, none, none, none⟩)], []⟩
    "evt_c8" "u8a" "u8b" "cus_8" ⟨some "cus_8", none, none, none, none⟩
    ⟨some "cus_8", some "b@x", "subscription", some 900, some "usd"⟩
    rfl rfl rfl rfl rfl rfl (by decide) (by decide) rfl

/--
C9: a request with a missing signature header, or one whose body and
signature fail verification, is answered with a 400 client error and leaves
the persisted state (profiles and the ledger) entirely unchanged: no handler
runs and no ledger row is written.
-/
theorem C9_invalid_signature (env : WebhookEnv) (st : WebhookState)
    (req : WebhookRequest)
    (h : req.hasSignature = false ∨ req.signatureValid = false) :
    (webhookPOST env st req).2 = st ∧
    ((webhookPOST env st req).1 = .badRequest "Missing signature" ∨
     (webhookPOST env st req).1 = .badRequest "Invalid signature") := by
  rcases h with h | h
  · simp [webhookPOST, h]
  · cases hs : req.hasSignature
    · simp [webhookPOST, hs]
    · simp [webhookPOST, hs, h]

/-- Concrete run of C9_invalid_signature on a tampered body whose
verification fails. -/
theorem C9_witness :
    ((⟨true, false, ⟨"evt_c9", "checkout.session.completed",
        .checkout ⟨some "cus_9", none, "payment", some 5, some "usd"⟩⟩⟩ :
      WebhookRequest).signatureValid = false) ∧
    (webhookPOST
        ⟨⟨"y_baby", "y_prem", "y_pro"⟩, ⟨[], false⟩,
         false, none, false, false, false, false⟩
        ⟨[("u9", ⟨some "cus_9", none, none, none, none⟩)], []⟩
        ⟨true, false, ⟨"evt_c9", "checkout.session.completed",
          .checkout ⟨some "cus_9", none, "payment", some 5,
            some "usd"⟩⟩⟩).2 =
      ⟨[("u9", ⟨some "cus_9", none, none, none, none⟩)], []⟩ ∧
    ((webhookPOST
        ⟨⟨"y_baby", "y_prem", "y_pro"⟩, ⟨[], false⟩,
         false, none, false, false, false, false⟩
        ⟨[("u9", ⟨some "cus_9", none, none, none, none⟩)], []⟩
        ⟨true, false, ⟨"evt_c9", "checkout.session.completed",
          .checkout ⟨some "cus_9", none, "payment", some 5,
            some "usd"⟩⟩⟩).1 = .badRequest "Missing signature" ∨
     (webhookPOST
        ⟨⟨"y_baby", "y_prem", "y_pro"⟩, ⟨[], false⟩,
         false, none, false, false, false, false⟩
        ⟨[("u9", ⟨some "cus_9", none, none, none, none⟩)], []⟩
        ⟨true, false, ⟨"evt_c9", "checkout.session.completed",
          .checkout ⟨some "cus_9", none, "payment", some 5,
            some "usd"⟩⟩⟩).1 = .badRequest "Invalid signature") := by
  have h := C9_invalid_signature
    ⟨⟨"y_baby", "y_prem", "y_pro"⟩, ⟨[], false⟩,
     false, none, false, false, false, false⟩
    ⟨[("u9", ⟨some "cus_9", none, none, none, none⟩)], []⟩
    ⟨true, false, ⟨"evt_c9", "checkout.session.completed",
      .checkout ⟨some "cus_9", none, "payment", some 5, some "usd"⟩⟩⟩
    (Or.inr rfl)
  exact ⟨rfl, h.1, h.2⟩

/--
C10: when the ledger existence check itself fails, the webhook continues as
if the event were new: it responds with the non-duplicate success body and
the handler appends another ledger row for the event id, so a redelivered
event id has its handler effects applied a second time whenever the ledger
is unreadable at check time.
-/
theorem C10_dedup_check_failure (env : WebhookEnv) (st : WebhookState)
    (req : WebhookRequest)
    (hd : env.dedupCheckFails = true)
    (h1 : req.hasSignature = true) (h2 : req.signatureValid = true)
    (h4 : env.paymentInsertFails = false)
    (h5 : handledEvent req.event = true) :
    (webhookPOST env st req).1 = .ok false ∧
    (webhookPOST env st req).2.payments.countP
        (fun r => r.stripe_event_id == req.event.id) =
      st.payments.countP (fun r => r.stripe_event_id == req.event.id) + 1 := by
  obtain ⟨row, hrow, hpay⟩ := handleEvent_payments env st req.event h5 h4
  have hfst : webhookPOST env st req =
      (.ok false, handleEvent env st req.event) := by
    simp [webhookPOST, h1, h2, hd]
  rw [hfst]
  refine ⟨rfl, ?_⟩
  simp [hpay, List.countP_cons, hrow]

/-- Concrete run of C10_dedup_check_failure: the ledger already holds a row
for the event id, the check fails, and a second row is appended. -/
theorem C10_witness :
    ((⟨⟨"z_baby", "z_prem", "z_pro"⟩, ⟨[], false⟩,
       false, none, false, false, false, true⟩ :
      WebhookEnv).dedupCheckFails = true) ∧
    (webhookPOST
        ⟨⟨"z_baby", "z_prem", "z_pro"⟩, ⟨[], false⟩,
         false, none, false, false, false, true⟩
        ⟨[], [⟨none, "evt_c10", "subscription", none, none,
          .opaqueObject⟩]⟩
        ⟨true, true, ⟨"evt_c10", "customer.subscription.deleted",
          .subscription ⟨"sub10", "cus_10", "canceled", some "z_pro",
            some 10⟩⟩⟩).1 = .ok false ∧
    (webhookPOST
        ⟨⟨"z_baby", "z_prem", "z_pro"⟩, ⟨[], false⟩,
         false, none, false, false, false, true⟩
        ⟨[], [⟨none, "evt_c10", "subscription", none, none,
          .opaqueObject⟩]⟩
        ⟨true, true, ⟨"evt_c10", "customer.subscription.deleted",
          .subscription ⟨"sub10", "cus_10", "canceled", some "z_pro",
            some 10⟩⟩⟩).2.payments.countP
      (fun r => r.stripe_event_id == "evt_c10") =
      ([(⟨none, "evt_c10", "subscription", none, none,
        .opaqueObject⟩ : PaymentRow)].countP
        (fun r => r.stripe_event_id == "evt_c10")) + 1 := by
  have h := C10_dedup_check_failure
    ⟨⟨"z_baby", "z_prem", "z_pro"⟩, ⟨[], false⟩,
     false, none, false, false, false, true⟩
    ⟨[], [⟨none, "evt_c10", "subscription", none, none, .opaqueObject⟩]⟩
    ⟨true, true, ⟨"evt_c10", "customer.subscription.deleted",
      .subscription ⟨"sub10", "cus_10", "canceled", some "z_pro",
        some 10⟩⟩⟩
    rfl rfl rfl rfl (by decide)
  exact ⟨rfl, h.1, h.2⟩

end StepByStepStripe
